import Mathlib

/-!
Shallow embedding of the city-explorer backend (src/server.js, src/schema.sql).

The server resolves a free-text location query via a geocoding provider and
caches per-location resource data (weather, events, movies, yelp business
listings) in a relational store.  Each route handler follows the same
read-check-fetch-write pattern through the generic `lookup` helper.

Modelling conventions:
- The relational store is a `DB` structure holding one list of rows per table
  of schema.sql.  `SELECT * FROM t WHERE location_id=$1` becomes a filter of
  the corresponding list; `INSERT` appends a row (SERIAL ids are modelled by
  an explicit `nextId` counter in `Env`).
- Each Express handler becomes a pure function from the request data, the
  provider payload (what the external HTTP call would return on success) and
  the current `DB` to an `Outcome`: the response sent (if any), the new `DB`,
  and the number of provider calls made while handling the request.
- Fire-and-forget inserts (`client.query(SQL, values)` without a `.then`) may
  individually succeed or fail without affecting the handler; this is
  modelled by the oracle `Env.insertOk : Nat → Bool`, giving the fate of the
  i-th insert issued by the fetch.
- JavaScript `Date` formatting (`new Date(ms).toString()`,
  `new Date(string).toString()`) is modelled by opaque-to-the-claims function
  parameters `Env.dateToString` / `Env.dateOfString`; no claim depends on the
  concrete text they produce.
- Fallible JavaScript property accesses (`results[0]` on an empty array,
  `result.rows[0].id` on an empty row set) are modelled with `Option` /
  `Except`: the error branch corresponds to the thrown `TypeError`.
-/

namespace CityExplorer

/-- Row of the `locations` table (schema.sql lines 7-13). -/
structure LocationRow where
  id : Nat
  search_query : String
  formatted_query : String
  latitude : Rat
  longitude : Rat
deriving DecidableEq, Repr, Inhabited

/-- Row of the `weathers` table (schema.sql lines 15-22). -/
structure WeatherRow where
  id : Nat
  forecast : String
  time : String
  created_at : Int
  location_id : Nat
deriving DecidableEq, Repr, Inhabited

/-- Row of the `events` table (schema.sql lines 23-31). -/
structure EventRow where
  id : Nat
  link : String
  name : String
  event_date : String
  summary : String
  location_id : Nat
deriving DecidableEq, Repr, Inhabited

/-- Row of the `movies` table (schema.sql lines 33-44). -/
structure MovieRow where
  id : Nat
  title : String
  overview : String
  average_votes : Rat
  total_votes : Rat
  image_url : String
  popularity : Rat
  released_on : String
  location_id : Nat
deriving DecidableEq, Repr, Inhabited

/-- Row of the `yelp` table (schema.sql lines 46-55). -/
structure YelpRow where
  id : Nat
  name : String
  url : String
  image_url : String
  rating : Rat
  price : String
  location_id : Nat
deriving DecidableEq, Repr, Inhabited

/-- The relational store: one list of rows per table of schema.sql. -/
structure DB where
  locations : List LocationRow
  weathers : List WeatherRow
  events : List EventRow
  movies : List MovieRow
  yelp : List YelpRow
deriving DecidableEq, Repr, Inhabited

/-- A row of any of the four resource tables, as returned by the generic
`lookup`, whose SQL names its table by the string `options.tableName`. -/
inductive Row where
  | weather (r : WeatherRow)
  | event (r : EventRow)
  | movie (r : MovieRow)
  | yelp (r : YelpRow)
deriving DecidableEq, Repr, Inhabited

/-- Every resource row carries a `location_id` column. -/
def Row.location_id : Row → Nat
  | .weather r => r.location_id
  | .event r => r.location_id
  | .movie r => r.location_id
  | .yelp r => r.location_id

/-- The `created_at` column, present only on weather rows.  Reading it on a
row of another table yields `undefined` in JavaScript, modelled as `none`. -/
def Row.created_at : Row → Option Int
  | .weather r => some r.created_at
  | _ => none

/-- `SELECT * FROM ${tableName}` for the four resource tables.  The generic
`lookup` is never called with the `locations` table (location lookups go
through `Location.lookupLocation`), so that name resolves to no rows. -/
def DB.table (db : DB) : String → List Row
  | "weathers" => db.weathers.map Row.weather
  | "events" => db.events.map Row.event
  | "movies" => db.movies.map Row.movie
  | "yelp" => db.yelp.map Row.yelp
  | _ => []

/-- The options object passed to the generic `lookup` (server.js 41-54):
a table name, a location id, and the two continuations. -/
structure LookupOptions (α : Type) where
  tableName : String
  location : Nat
  cacheHit : List Row → α
  cacheMiss : Unit → α

/-- Generic cache probe (server.js lines 41-54):
`SELECT * FROM ${options.tableName} WHERE location_id=$1;`, then
`options.cacheHit(result)` when `result.rowCount > 0`, else
`options.cacheMiss()`. -/
def lookup {α : Type} (db : DB) (options : LookupOptions α) : α :=
  let result := (db.table options.tableName).filter
    (fun r => r.location_id == options.location)
  if result.length > 0 then options.cacheHit result else options.cacheMiss ()

/-- `DELETE from ${table} WHERE location_id=${city};` (server.js 56-59).
Only resource tables are ever passed (the sole call site passes
`Weather.tableName`); on any other name the SQL would error against the
schema and the store is left unchanged. -/
def deleteByLocationId (db : DB) (table : String) (city : Nat) : DB :=
  match table with
  | "weathers" => { db with weathers := db.weathers.filter (fun r => !(r.location_id == city)) }
  | "events" => { db with events := db.events.filter (fun r => !(r.location_id == city)) }
  | "movies" => { db with movies := db.movies.filter (fun r => !(r.location_id == city)) }
  | "yelp" => { db with yelp := db.yelp.filter (fun r => !(r.location_id == city)) }
  | _ => db

/-- The staleness thresholds object (server.js 61-64). -/
structure Timeouts where
  weathers : Int
deriving DecidableEq, Repr

/-- `const timeouts = { weathers: 15 * 1000 }`. -/
def timeouts : Timeouts := { weathers := 15 * 1000 }

/-- The fields of `request.query.data` used by the resource handlers: a
previously resolved location record sent back by the client. -/
structure RequestData where
  id : Nat
  latitude : Rat
  longitude : Rat
  search_query : String
  formatted_query : String
deriving DecidableEq, Repr, Inhabited

/-- Ambient execution facts of a single request: the clock, the JavaScript
date formatters, the fate of each fire-and-forget insert, and the next
SERIAL id the store would assign. -/
structure Env where
  now : Int
  dateToString : Int → String
  dateOfString : String → String
  insertOk : Nat → Bool
  nextId : Nat

/-- Response body of a resource handler: either the cached rows
(`response.send(result.rows)`) or the freshly mapped records. -/
inductive ResponseBody (σ : Type) where
  | cached (rows : List Row)
  | fetched (records : List σ)
deriving DecidableEq, Repr

/-- What handling one resource request did: the response sent (`none` when
the error path sends nothing), the store afterwards, and how many external
provider calls were made. -/
structure Outcome (σ : Type) where
  response : Option (ResponseBody σ)
  db : DB
  providerCalls : Nat
deriving Repr

/-- The rows produced by the fire-and-forget inserts of one fetch: the item
at position `pos` is inserted with SERIAL id `nextId + pos` when its
`client.query` insert succeeds (`ok pos`), and is lost otherwise. -/
def insertedRows {β ρ : Type} (mkRow : β → Nat → ρ) (nextId : Nat) (ok : Nat → Bool) :
    List β → Nat → List ρ
  | [], _ => []
  | b :: bs, pos =>
      (if ok pos then [mkRow b (nextId + pos)] else []) ++ insertedRows mkRow nextId ok bs (pos + 1)

/- ==================== Weather ==================== -/

/-- One element of `result.body.daily.data` in the Dark Sky payload. -/
structure WeatherDay where
  summary : String
  time : Int
deriving DecidableEq, Repr

/-- The object built by `new Weather(day)` (server.js 131-136). -/
structure Weather where
  tableName : String
  forecast : String
  time : String
  created_at : Int
deriving DecidableEq, Repr

/-- `new Weather(day)`: `forecast = day.summary`,
`time = new Date(day.time * 1000).toString().slice(0, 15)`,
`created_at = Date.now()`. -/
def Weather.build (dateToString : Int → String) (now : Int) (day : WeatherDay) : Weather :=
  { tableName := "weathers"
    forecast := day.summary
    time := (dateToString (day.time * 1000)).take 15
    created_at := now }

/-- The static `Weather.tableName = 'weathers'` (server.js 138); named
`weathersTableName` because the constructor field is also `tableName`. -/
def weathersTableName : String := "weathers"

/-- The row inserted by `Weather.prototype.save(location_id)`
(server.js 142-149), with the SERIAL id the store assigns. -/
def Weather.toRow (w : Weather) (location_id id : Nat) : WeatherRow :=
  { id := id, forecast := w.forecast, time := w.time,
    created_at := w.created_at, location_id := location_id }

/-- The cache-miss branch of `getWeather` (server.js 168-181): call the Dark
Sky provider, map each day to a `Weather` (saving each, fire-and-forget),
send all summaries (weather is not truncated). -/
def weatherCacheMiss (env : Env) (request : RequestData) (daily : List WeatherDay)
    (db : DB) : Outcome Weather :=
  let weatherSummaries := daily.map (fun day => Weather.build env.dateToString env.now day)
  let saved := insertedRows (fun w id => Weather.toRow w request.id id) env.nextId
    env.insertOk weatherSummaries 0
  { response := some (.fetched weatherSummaries)
    db := { db with weathers := db.weathers ++ saved }
    providerCalls := 1 }

/-- `getWeather` (server.js 151-183).  On a cache hit the age of the first
cached row decides: stale (`> timeouts.weathers`) deletes all weather rows
for the location and falls through to the cache-miss branch; fresh sends the
cached rows.  `Date.now() - undefined` is `NaN` and `NaN > t` is `false`,
so a row without `created_at` counts as fresh. -/
def getWeather (env : Env) (request : RequestData) (daily : List WeatherDay)
    (db : DB) : Outcome Weather :=
  lookup db
    { tableName := weathersTableName
      location := request.id
      cacheHit := fun result =>
        let stale := match result.headI.created_at with
          | some c => decide (env.now - c > timeouts.weathers)
          | none => false
        if stale then
          weatherCacheMiss env request daily (deleteByLocationId db weathersTableName request.id)
        else
          { response := some (.cached result), db := db, providerCalls := 0 }
      cacheMiss := fun _ => weatherCacheMiss env request daily db }

/- ==================== Events ==================== -/

/-- One element of `result.body.events` in the Eventbrite payload; field
names follow the accesses `event.url`, `event.name.text`,
`event.start.local`, `event.summary`. -/
structure EventItem where
  url : String
  name_text : String
  start_local : String
  summary : String
deriving DecidableEq, Repr

/-- The object built by `new Event(event)` (server.js 188-194). -/
structure Event where
  tableName : String
  link : String
  name : String
  event_date : String
  summary : String
deriving DecidableEq, Repr

/-- `new Event(event)`: `link = event.url`, `name = event.name.text`,
`event_date = new Date(event.start.local).toString().slice(0, 15)`. -/
def Event.build (dateOfString : String → String) (event : EventItem) : Event :=
  { tableName := "events"
    link := event.url
    name := event.name_text
    event_date := (dateOfString event.start_local).take 15
    summary := event.summary }

/-- The static `Event.tableName = 'events'` (server.js 196). -/
def eventsTableName : String := "events"

/-- `Event.lookup = lookup` (server.js 197): the alias is definitionally the
generic `lookup`. -/
def Event.lookup {α : Type} : DB → LookupOptions α → α := CityExplorer.lookup

/-- The row inserted by `Event.prototype.save(location_id)`
(server.js 199-206), with the SERIAL id the store assigns. -/
def Event.toRow (e : Event) (location_id id : Nat) : EventRow :=
  { id := id, link := e.link, name := e.name, event_date := e.event_date,
    summary := e.summary, location_id := location_id }

/-- `getEvents` (server.js 209-235).  On a miss, `.map` constructs and saves
an `Event` for EVERY payload item (fire-and-forget), and only then
`.slice(0,2)` truncates the list that is sent. -/
def getEvents (env : Env) (request : RequestData) (payload : List EventItem)
    (db : DB) : Outcome Event :=
  Event.lookup db
    { tableName := eventsTableName
      location := request.id
      cacheHit := fun result =>
        { response := some (.cached result), db := db, providerCalls := 0 }
      cacheMiss := fun _ =>
        let mapped := payload.map (fun eventData => Event.build env.dateOfString eventData)
        let saved := insertedRows (fun e id => Event.toRow e request.id id) env.nextId
          env.insertOk mapped 0
        let events := mapped.take 2
        { response := some (.fetched events)
          db := { db with events := db.events ++ saved }
          providerCalls := 1 } }

/- ==================== Movies ==================== -/

/-- One element of `result.body.results` in the TMDb payload. -/
structure MovieItem where
  title : String
  overview : String
  vote_average : Rat
  vote_count : Rat
  poster_path : String
  popularity : Rat
  release_date : String
deriving DecidableEq, Repr

/-- The object built by `new Movie(res)` (server.js 239-248). -/
structure Movie where
  tableName : String
  title : String
  overview : String
  average_votes : Rat
  total_votes : Rat
  image_url : String
  popularity : Rat
  released_on : String
deriving DecidableEq, Repr

/-- `new Movie(res)`: field-by-field mapping, with
`image_url = 'https://image.tmdb.org/t/p/w185/' + res.poster_path`. -/
def Movie.build (res : MovieItem) : Movie :=
  { tableName := "movies"
    title := res.title
    overview := res.overview
    average_votes := res.vote_average
    total_votes := res.vote_count
    image_url := "https://image.tmdb.org/t/p/w185/" ++ res.poster_path
    popularity := res.popularity
    released_on := res.release_date }

/-- The static `Movie.tableName = 'movies'` (server.js 251). -/
def moviesTableName : String := "movies"

/-- `Movie.lookup = lookup` (server.js 252). -/
def Movie.lookup {α : Type} : DB → LookupOptions α → α := CityExplorer.lookup

/-- The row inserted by `Movie.prototype.save(location_id)`
(server.js 254-261). -/
def Movie.toRow (m : Movie) (location_id id : Nat) : MovieRow :=
  { id := id, title := m.title, overview := m.overview,
    average_votes := m.average_votes, total_votes := m.total_votes,
    image_url := m.image_url, popularity := m.popularity,
    released_on := m.released_on, location_id := location_id }

/-- `getMovies` (server.js 263-288): written against `Event.lookup` but with
`tableName: Movie.tableName`.  Same map-save-then-slice shape as events. -/
def getMovies (env : Env) (request : RequestData) (payload : List MovieItem)
    (db : DB) : Outcome Movie :=
  Event.lookup db
    { tableName := moviesTableName
      location := request.id
      cacheHit := fun result =>
        { response := some (.cached result), db := db, providerCalls := 0 }
      cacheMiss := fun _ =>
        let mapped := payload.map (fun mov => Movie.build mov)
        let saved := insertedRows (fun m id => Movie.toRow m request.id id) env.nextId
          env.insertOk mapped 0
        let movieEnties := mapped.take 2
        { response := some (.fetched movieEnties)
          db := { db with movies := db.movies ++ saved }
          providerCalls := 1 } }

/- ==================== Yelp ==================== -/

/-- One element of `result.body.businesses` in the Yelp payload. -/
structure YelpItem where
  name : String
  image_url : String
  price : String
  rating : Rat
  url : String
deriving DecidableEq, Repr

/-- The object built by `new Yelp(res)` (server.js 293-300). -/
structure Yelp where
  tableName : String
  name : String
  image_url : String
  price : String
  rating : Rat
  url : String
deriving DecidableEq, Repr

/-- `new Yelp(res)`: field-by-field copy of the payload item. -/
def Yelp.build (res : YelpItem) : Yelp :=
  { tableName := "yelp"
    name := res.name
    image_url := res.image_url
    price := res.price
    rating := res.rating
    url := res.url }

/-- The static `Yelp.tableName = 'yelp'` (server.js 302). -/
def yelpTableName : String := "yelp"

/-- `Yelp.lookup = lookup` (server.js 303). -/
def Yelp.lookup {α : Type} : DB → LookupOptions α → α := CityExplorer.lookup

/-- The row inserted by `Yelp.prototype.save(location_id)`
(server.js 305-312). -/
def Yelp.toRow (y : Yelp) (location_id id : Nat) : YelpRow :=
  { id := id, name := y.name, url := y.url, image_url := y.image_url,
    rating := y.rating, price := y.price, location_id := location_id }

/-- `getYelp` (server.js 314-341): same map-save-then-slice shape. -/
def getYelp (env : Env) (request : RequestData) (payload : List YelpItem)
    (db : DB) : Outcome Yelp :=
  Yelp.lookup db
    { tableName := yelpTableName
      location := request.id
      cacheHit := fun result =>
        { response := some (.cached result), db := db, providerCalls := 0 }
      cacheMiss := fun _ =>
        let mapped := payload.map (fun ylp => Yelp.build ylp)
        let saved := insertedRows (fun y id => Yelp.toRow y request.id id) env.nextId
          env.insertOk mapped 0
        let yelpEnties := mapped.take 2
        { response := some (.fetched yelpEnties)
          db := { db with yelp := db.yelp ++ saved }
          providerCalls := 1 } }

/- ==================== Location ==================== -/

/-- One element of `res.body.results` in the Google geocoding payload. -/
structure GeoResult where
  formatted_address : String
  lat : Rat
  lng : Rat
deriving DecidableEq, Repr

/-- The object built by `new Location(query, res)` (server.js 67-73); `id`
is absent until `save` assigns it (`this.id = result.rows[0].id`). -/
structure Location where
  tableName : String
  search_query : String
  formatted_query : String
  latitude : Rat
  longitude : Rat
  id? : Option Nat := none
deriving DecidableEq, Repr

/-- `new Location(query, res)` reads `res.body.results[0]` three times.  With
an empty `results` array, `results[0]` is `undefined` and the very first
property access throws a `TypeError`: the error branch, modelled as `none`.
-/
def Location.build (query : String) (results : List GeoResult) : Option Location :=
  match results with
  | [] => none
  | r :: _ =>
      some { tableName := "locations"
             search_query := query
             formatted_query := r.formatted_address
             latitude := r.lat
             longitude := r.lng }

/-- `Location.lookupLocation(location)` (server.js 75-88):
`SELECT * FROM locations WHERE search_query=$1;`, then `location.cacheHit`
on `rowCount > 0`, else `location.cacheMiss`. -/
def Location.lookupLocation {α : Type} (db : DB) (query : String)
    (cacheHit : List LocationRow → α) (cacheMiss : Unit → α) : α :=
  let result := db.locations.filter (fun r => r.search_query == query)
  if result.length > 0 then cacheHit result else cacheMiss ()

/-- `Location.prototype.save` (server.js 90-101):
`INSERT INTO locations ... ON CONFLICT DO NOTHING RETURNING id;` and then
`this.id = result.rows[0].id`.  `conflict` says whether the insert hit a
unique-constraint collision.  On collision the statement inserts nothing
and returns zero rows, so `result.rows[0]` is `undefined` and reading `.id`
throws: the returned promise rejects, modelled as `Except.error`.  Without
a collision the row is inserted with the next SERIAL id, which is also
assigned to the record. -/
def Location.save (loc : Location) (conflict : Bool) (nextId : Nat) (db : DB) :
    Except String (Location × DB) :=
  if conflict then
    .error "TypeError: Cannot read property id of undefined"
  else
    let row : LocationRow :=
      { id := nextId
        search_query := loc.search_query
        formatted_query := loc.formatted_query
        latitude := loc.latitude
        longitude := loc.longitude }
    .ok ({ loc with id? := some nextId }, { db with locations := db.locations ++ [row] })

/-- The body a `/location` request answers with: the cached row on a hit
(`response.send(result.rows[0])`) or the freshly saved record on a miss
(`response.send(location)`). -/
inductive LocationResponse where
  | row (r : LocationRow)
  | saved (l : Location)
deriving DecidableEq, Repr

/-- What handling one `/location` request did. -/
structure LocationOutcome where
  response : Option LocationResponse
  db : DB
  geocodeCalls : Nat
deriving DecidableEq, Repr

/-- `getLocation` (server.js 103-125).  On a store miss the geocoding
provider is called; `new Location` throwing on an empty `results` array is
caught by `.catch(error => handleError(error))`, which has no `res` and so
sends no response.  A rejection of `location.save()` (collision case) is
attached to no handler at all: `response.send` is never reached and no
response is sent either. -/
def getLocation (env : Env) (conflict : Bool) (query : String)
    (geocodeResults : List GeoResult) (db : DB) : LocationOutcome :=
  Location.lookupLocation db query
    (fun result =>
      { response := some (.row result.headI), db := db, geocodeCalls := 0 })
    (fun _ =>
      match Location.build query geocodeResults with
      | none => { response := none, db := db, geocodeCalls := 1 }
      | some location =>
          match location.save conflict env.nextId db with
          | .error _ => { response := none, db := db, geocodeCalls := 1 }
          | .ok (loc, db2) =>
              { response := some (.saved loc), db := db2, geocodeCalls := 1 })

/- ==================== Spec-side definition for refinement ==================== -/

/-- Spec-side reference for the refinement claim about `getMovies`: the
movies handler written directly against the generic `lookup` specialized
with the movies table name, body otherwise identical to `getMovies`. -/
def getMoviesGeneric (env : Env) (request : RequestData) (payload : List MovieItem)
    (db : DB) : Outcome Movie :=
  lookup db
    { tableName := moviesTableName
      location := request.id
      cacheHit := fun result =>
        { response := some (.cached result), db := db, providerCalls := 0 }
      cacheMiss := fun _ =>
        let mapped := payload.map (fun mov => Movie.build mov)
        let saved := insertedRows (fun m id => Movie.toRow m request.id id) env.nextId
          env.insertOk mapped 0
        let movieEnties := mapped.take 2
        { response := some (.fetched movieEnties)
          db := { db with movies := db.movies ++ saved }
          providerCalls := 1 } }

/- ==================== Concrete sample inputs ==================== -/

/-- A concrete environment used to exercise the handlers. -/
def envT : Env :=
  { now := 100000
    dateToString := fun _ => "date"
    dateOfString := fun _ => "date"
    insertOk := fun _ => true
    nextId := 10 }

/-- A concrete `request.query.data` for location id 7. -/
def reqT : RequestData :=
  { id := 7, latitude := 47, longitude := -122, search_query := "98005",
    formatted_query := "Renton" }

/-- The empty store. -/
def dbEmpty : DB := { locations := [], weathers := [], events := [], movies := [], yelp := [] }

/-- A store holding one cached row for location 7 in each non-weather
resource table. -/
def dbHit : DB :=
  { locations := []
    weathers := []
    events := [{ id := 1, link := "l", name := "n", event_date := "d", summary := "s",
                 location_id := 7 }]
    movies := [{ id := 1, title := "t", overview := "o", average_votes := 5,
                 total_votes := 100, image_url := "u", popularity := 3,
                 released_on := "2019", location_id := 7 }]
    yelp := [{ id := 1, name := "n", url := "u", image_url := "i", rating := 4,
               price := "$$", location_id := 7 }] }

/-- A store whose weather rows for location 7 are stale relative to
`envT.now` (age 100000 ms), plus a row for another location. -/
def dbStale : DB :=
  { locations := []
    weathers := [{ id := 1, forecast := "cloudy", time := "t", created_at := 0,
                   location_id := 7 },
                 { id := 2, forecast := "clear", time := "t", created_at := 50,
                   location_id := 8 }]
    events := [], movies := [], yelp := [] }

/-- A one-day weather payload. -/
def dailyT : List WeatherDay := [{ summary := "sunny", time := 5 }]

/-- An events payload with three items (more than the 2-item response cap). -/
def eventsPayload3 : List EventItem :=
  [{ url := "u1", name_text := "n1", start_local := "s1", summary := "m1" },
   { url := "u2", name_text := "n2", start_local := "s2", summary := "m2" },
   { url := "u3", name_text := "n3", start_local := "s3", summary := "m3" }]

/-- A movies payload with three items. -/
def moviesPayload3 : List MovieItem :=
  [{ title := "t1", overview := "o1", vote_average := 1, vote_count := 10,
     poster_path := "p1", popularity := 2, release_date := "2001" },
   { title := "t2", overview := "o2", vote_average := 2, vote_count := 20,
     poster_path := "p2", popularity := 3, release_date := "2002" },
   { title := "t3", overview := "o3", vote_average := 3, vote_count := 30,
     poster_path := "p3", popularity := 4, release_date := "2003" }]

/-- A yelp payload with three items. -/
def yelpPayload3 : List YelpItem :=
  [{ name := "n1", image_url := "i1", price := "$", rating := 3, url := "u1" },
   { name := "n2", image_url := "i2", price := "$$", rating := 4, url := "u2" },
   { name := "n3", image_url := "i3", price := "$$$", rating := 5, url := "u3" }]

/-- A single-result geocoding payload. -/
def geoT0 : GeoResult := { formatted_address := "Renton, WA 98056, USA", lat := 47, lng := -122 }

/-- The geocoding payload list holding just `geoT0`. -/
def geoT : List GeoResult := [geoT0]

/- ==================== Helper lemmas ==================== -/

theorem lookup_hit {α : Type} (db : DB) (options : LookupOptions α)
    (h : (db.table options.tableName).filter (fun r => r.location_id == options.location) ≠ []) :
    lookup db options = options.cacheHit
      ((db.table options.tableName).filter (fun r => r.location_id == options.location)) := by
  unfold lookup
  simp [List.length_pos, h]

theorem lookup_miss {α : Type} (db : DB) (options : LookupOptions α)
    (h : (db.table options.tableName).filter (fun r => r.location_id == options.location) = []) :
    lookup db options = options.cacheMiss () := by
  unfold lookup
  simp [h]

theorem filter_table_weathers (db : DB) (loc : Nat) :
    (db.table weathersTableName).filter (fun r => r.location_id == loc)
      = (db.weathers.filter (fun r => r.location_id == loc)).map Row.weather := by
  show (db.weathers.map Row.weather).filter _ = _
  rw [List.filter_map]; rfl

theorem filter_table_events (db : DB) (loc : Nat) :
    (db.table eventsTableName).filter (fun r => r.location_id == loc)
      = (db.events.filter (fun r => r.location_id == loc)).map Row.event := by
  show (db.events.map Row.event).filter _ = _
  rw [List.filter_map]; rfl

theorem filter_table_movies (db : DB) (loc : Nat) :
    (db.table moviesTableName).filter (fun r => r.location_id == loc)
      = (db.movies.filter (fun r => r.location_id == loc)).map Row.movie := by
  show (db.movies.map Row.movie).filter _ = _
  rw [List.filter_map]; rfl

theorem filter_table_yelp (db : DB) (loc : Nat) :
    (db.table yelpTableName).filter (fun r => r.location_id == loc)
      = (db.yelp.filter (fun r => r.location_id == loc)).map Row.yelp := by
  show (db.yelp.map Row.yelp).filter _ = _
  rw [List.filter_map]; rfl

theorem insertedRows_length {β ρ : Type} (mkRow : β → Nat → ρ) (nextId : Nat)
    (ok : Nat → Bool) (hok : ∀ i, ok i = true) :
    ∀ (l : List β) (pos : Nat), (insertedRows mkRow nextId ok l pos).length = l.length := by
  intro l
  induction l with
  | nil => intro pos; rfl
  | cons b bs ih => intro pos; simp [insertedRows, hok pos, ih]

/- ==================== Claims ==================== -/

/-- C1.  For a weather request that finds at least one cached row for the
requested `location_id`: when `now - created_at` of the first returned row
exceeds `timeouts.weathers` (15000 ms), all pre-existing weather rows for
that location are deleted (the weathers table becomes the other locations'
rows followed only by the rows of the single fresh fetch) and exactly one
provider call is made; when the age is at most 15000 ms, the store is
untouched, no provider call is made, and the stored rows are sent
unmodified. -/
theorem weather_staleness_policy (env : Env) (request : RequestData)
    (daily : List WeatherDay) (db : DB)
    (hhit : db.weathers.filter (fun r => r.location_id == request.id) ≠ []) :
    (env.now - (db.weathers.filter (fun r => r.location_id == request.id)).headI.created_at
        > timeouts.weathers →
      (getWeather env request daily db).db.weathers =
          db.weathers.filter (fun r => !(r.location_id == request.id)) ++
            insertedRows (fun w id => Weather.toRow w request.id id) env.nextId env.insertOk
              (daily.map (Weather.build env.dateToString env.now)) 0 ∧
      (getWeather env request daily db).providerCalls = 1)
    ∧ (env.now - (db.weathers.filter (fun r => r.location_id == request.id)).headI.created_at
        ≤ timeouts.weathers →
      (getWeather env request daily db).db = db ∧
      (getWeather env request daily db).providerCalls = 0 ∧
      (getWeather env request daily db).response =
        some (.cached ((db.weathers.filter (fun r => r.location_id == request.id)).map
          Row.weather))) := by
  have hb := filter_table_weathers db request.id
  cases hF : db.weathers.filter (fun r => r.location_id == request.id) with
  | nil => exact absurd hF hhit
  | cons f fs =>
    rw [hF] at hb
    constructor
    · intro hstale
      simp only [List.headI] at hstale
      simp only [getWeather, lookup]
      rw [hb]
      simp [weatherCacheMiss, deleteByLocationId, weathersTableName, Row.created_at, hstale]
    · intro hfresh
      simp only [List.headI] at hfresh
      have hnot : ¬(timeouts.weathers < env.now - f.created_at) := not_lt.mpr hfresh
      simp only [getWeather, lookup]
      rw [hb]
      simp [Row.created_at, hnot]

/-- C1, witnessed on a concrete stale store: the hypotheses hold at
`envT`/`reqT`/`dailyT`/`dbStale` and the stale branch deletes location 7's
rows and makes exactly one provider call. -/
theorem weather_staleness_policy_witness :
    dbStale.weathers.filter (fun r => r.location_id == reqT.id) ≠ [] ∧
    envT.now - (dbStale.weathers.filter
      (fun r => r.location_id == reqT.id)).headI.created_at > timeouts.weathers ∧
    (getWeather envT reqT dailyT dbStale).providerCalls = 1 ∧
    (getWeather envT reqT dailyT dbStale).db.weathers =
      dbStale.weathers.filter (fun r => !(r.location_id == reqT.id)) ++
        insertedRows (fun w id => Weather.toRow w reqT.id id) envT.nextId envT.insertOk
          (dailyT.map (Weather.build envT.dateToString envT.now)) 0 :=
  ⟨by decide, by decide,
   ((weather_staleness_policy envT reqT dailyT dbStale (by decide)).1 (by decide)).2,
   ((weather_staleness_policy envT reqT dailyT dbStale (by decide)).1 (by decide)).1⟩

/-- C5.  For each non-weather resource (events, movies, yelp): when at least
one row for the requested location exists, the handler returns exactly the
stored rows, leaves the store unchanged, and makes no provider call.  Since
the store is unchanged, every subsequent fetch repeats the same cache hit —
cached once, served forever, with no freshness check. -/
theorem non_weather_cache_idempotent (env : Env) (request : RequestData)
    (pe : List EventItem) (pm : List MovieItem) (py : List YelpItem) (db : DB)
    (he : db.events.filter (fun r => r.location_id == request.id) ≠ [])
    (hm : db.movies.filter (fun r => r.location_id == request.id) ≠ [])
    (hy : db.yelp.filter (fun r => r.location_id == request.id) ≠ []) :
    getEvents env request pe db =
      { response := some (.cached ((db.events.filter
            (fun r => r.location_id == request.id)).map Row.event))
        db := db, providerCalls := 0 } ∧
    getMovies env request pm db =
      { response := some (.cached ((db.movies.filter
            (fun r => r.location_id == request.id)).map Row.movie))
        db := db, providerCalls := 0 } ∧
    getYelp env request py db =
      { response := some (.cached ((db.yelp.filter
            (fun r => r.location_id == request.id)).map Row.yelp))
        db := db, providerCalls := 0 } := by
  refine ⟨?_, ?_, ?_⟩
  · have hbe := filter_table_events db request.id
    have hne : (db.table eventsTableName).filter (fun r => r.location_id == request.id) ≠ [] := by
      rw [hbe]; exact fun hc => he (List.map_eq_nil_iff.mp hc)
    unfold getEvents Event.lookup
    rw [lookup_hit db _ hne]
    rw [show ((db.table eventsTableName).filter (fun r => r.location_id == request.id))
        = _ from hbe]
  · have hbm := filter_table_movies db request.id
    have hne : (db.table moviesTableName).filter (fun r => r.location_id == request.id) ≠ [] := by
      rw [hbm]; exact fun hc => hm (List.map_eq_nil_iff.mp hc)
    unfold getMovies Event.lookup
    rw [lookup_hit db _ hne]
    rw [show ((db.table moviesTableName).filter (fun r => r.location_id == request.id))
        = _ from hbm]
  · have hby := filter_table_yelp db request.id
    have hne : (db.table yelpTableName).filter (fun r => r.location_id == request.id) ≠ [] := by
      rw [hby]; exact fun hc => hy (List.map_eq_nil_iff.mp hc)
    unfold getYelp Yelp.lookup
    rw [lookup_hit db _ hne]
    rw [show ((db.table yelpTableName).filter (fun r => r.location_id == request.id))
        = _ from hby]

/-- C5, witnessed on `dbHit`, which holds one row for location 7 in each
non-weather table: the events handler serves the stored row with no
provider call and no store change. -/
theorem non_weather_cache_idempotent_witness :
    dbHit.events.filter (fun r => r.location_id == reqT.id) ≠ [] ∧
    getEvents envT reqT eventsPayload3 dbHit =
      { response := some (.cached ((dbHit.events.filter
            (fun r => r.location_id == reqT.id)).map Row.event))
        db := dbHit, providerCalls := 0 } :=
  ⟨by decide,
   (non_weather_cache_idempotent envT reqT eventsPayload3 moviesPayload3 yelpPayload3 dbHit
     (by decide) (by decide) (by decide)).1⟩

/-- C4.  On each non-weather cache miss the response sent is the mapped
payload truncated by `.slice(0,2)`, and so contains at most 2 items for
every provider payload. -/
theorem cache_miss_response_truncated (env : Env) (request : RequestData)
    (pe : List EventItem) (pm : List MovieItem) (py : List YelpItem) (db : DB)
    (he : db.events.filter (fun r => r.location_id == request.id) = [])
    (hm : db.movies.filter (fun r => r.location_id == request.id) = [])
    (hy : db.yelp.filter (fun r => r.location_id == request.id) = []) :
    ((getEvents env request pe db).response =
        some (.fetched ((pe.map (Event.build env.dateOfString)).take 2)) ∧
      ((pe.map (Event.build env.dateOfString)).take 2).length ≤ 2) ∧
    ((getMovies env request pm db).response =
        some (.fetched ((pm.map Movie.build).take 2)) ∧
      ((pm.map Movie.build).take 2).length ≤ 2) ∧
    ((getYelp env request py db).response =
        some (.fetched ((py.map Yelp.build).take 2)) ∧
      ((py.map Yelp.build).take 2).length ≤ 2) := by
  have hne : (db.table eventsTableName).filter (fun r => r.location_id == request.id) = [] := by
    rw [filter_table_events db request.id, he]; rfl
  have hnm : (db.table moviesTableName).filter (fun r => r.location_id == request.id) = [] := by
    rw [filter_table_movies db request.id, hm]; rfl
  have hny : (db.table yelpTableName).filter (fun r => r.location_id == request.id) = [] := by
    rw [filter_table_yelp db request.id, hy]; rfl
  refine ⟨⟨?_, ?_⟩, ⟨?_, ?_⟩, ⟨?_, ?_⟩⟩
  · unfold getEvents Event.lookup
    rw [lookup_miss db _ hne]
  · simp [List.length_take]
  · unfold getMovies Event.lookup
    rw [lookup_miss db _ hnm]
  · simp [List.length_take]
  · unfold getYelp Yelp.lookup
    rw [lookup_miss db _ hny]
  · simp [List.length_take]

/-- C4, witnessed on the empty store with three-item payloads: the movies
response is the 2-item truncation. -/
theorem cache_miss_response_truncated_witness :
    dbEmpty.movies.filter (fun r => r.location_id == reqT.id) = [] ∧
    (getMovies envT reqT moviesPayload3 dbEmpty).response =
      some (.fetched ((moviesPayload3.map Movie.build).take 2)) ∧
    ((moviesPayload3.map Movie.build).take 2).length ≤ 2 :=
  ⟨rfl,
   (cache_miss_response_truncated envT reqT eventsPayload3 moviesPayload3 yelpPayload3 dbEmpty
     rfl rfl rfl).2.1.1,
   (cache_miss_response_truncated envT reqT eventsPayload3 moviesPayload3 yelpPayload3 dbEmpty
     rfl rfl rfl).2.1.2⟩

/-- C2 counterexample.  The claim caps the records created per fetch at 2,
but `.slice(0,2)` runs only after `.map` has already saved every payload
item: an events cache miss with a 3-item payload creates 3 rows. -/
theorem events_persist_beyond_cap :
    (getEvents envT reqT eventsPayload3 dbEmpty).db.events.length = 3 ∧
    ¬((getEvents envT reqT eventsPayload3 dbEmpty).db.events.length ≤ 2) := by
  constructor
  · rfl
  · decide

/-- C2 as amended.  On a non-weather cache miss the RESPONSE is capped at 2
items, but a record is persisted for every payload item: with all inserts
succeeding, the records created number exactly the payload length. -/
theorem cache_miss_persists_every_item (env : Env) (request : RequestData)
    (pe : List EventItem) (pm : List MovieItem) (py : List YelpItem) (db : DB)
    (he : db.events.filter (fun r => r.location_id == request.id) = [])
    (hm : db.movies.filter (fun r => r.location_id == request.id) = [])
    (hy : db.yelp.filter (fun r => r.location_id == request.id) = [])
    (hok : ∀ i, env.insertOk i = true) :
    ((getEvents env request pe db).db.events.length = db.events.length + pe.length ∧
      (getEvents env request pe db).response =
        some (.fetched ((pe.map (Event.build env.dateOfString)).take 2))) ∧
    ((getMovies env request pm db).db.movies.length = db.movies.length + pm.length ∧
      (getMovies env request pm db).response =
        some (.fetched ((pm.map Movie.build).take 2))) ∧
    ((getYelp env request py db).db.yelp.length = db.yelp.length + py.length ∧
      (getYelp env request py db).response =
        some (.fetched ((py.map Yelp.build).take 2))) := by
  have hne : (db.table eventsTableName).filter (fun r => r.location_id == request.id) = [] := by
    rw [filter_table_events db request.id, he]; rfl
  have hnm : (db.table moviesTableName).filter (fun r => r.location_id == request.id) = [] := by
    rw [filter_table_movies db request.id, hm]; rfl
  have hny : (db.table yelpTableName).filter (fun r => r.location_id == request.id) = [] := by
    rw [filter_table_yelp db request.id, hy]; rfl
  refine ⟨⟨?_, ?_⟩, ⟨?_, ?_⟩, ⟨?_, ?_⟩⟩
  · unfold getEvents Event.lookup
    rw [lookup_miss db _ hne]
    simp [insertedRows_length _ _ _ hok]
  · unfold getEvents Event.lookup
    rw [lookup_miss db _ hne]
  · unfold getMovies Event.lookup
    rw [lookup_miss db _ hnm]
    simp [insertedRows_length _ _ _ hok]
  · unfold getMovies Event.lookup
    rw [lookup_miss db _ hnm]
  · unfold getYelp Yelp.lookup
    rw [lookup_miss db _ hny]
    simp [insertedRows_length _ _ _ hok]
  · unfold getYelp Yelp.lookup
    rw [lookup_miss db _ hny]

/-- C2 as amended, witnessed on the empty store with a 3-item events
payload and all inserts succeeding: 3 records are created. -/
theorem cache_miss_persists_every_item_witness :
    dbEmpty.events.filter (fun r => r.location_id == reqT.id) = [] ∧
    (getEvents envT reqT eventsPayload3 dbEmpty).db.events.length =
      dbEmpty.events.length + eventsPayload3.length :=
  ⟨rfl,
   (cache_miss_persists_every_item envT reqT eventsPayload3 moviesPayload3 yelpPayload3
     dbEmpty rfl rfl rfl (fun _ => rfl)).1.1⟩

/-- C8.  On a cache miss of each resource handler the inserts are
fire-and-forget: whatever each `client.query` insert does (oracle `ok1`
versus `ok2`), the response is identical, and it is exactly the mapped
provider payload (truncated to 2 for the non-weather resources) — a pure
function of the payload. -/
theorem response_independent_of_insert_outcome (env : Env) (ok1 ok2 : Nat → Bool)
    (request : RequestData) (daily : List WeatherDay)
    (pe : List EventItem) (pm : List MovieItem) (py : List YelpItem) (db : DB)
    (hw : db.weathers.filter (fun r => r.location_id == request.id) = [])
    (he : db.events.filter (fun r => r.location_id == request.id) = [])
    (hm : db.movies.filter (fun r => r.location_id == request.id) = [])
    (hy : db.yelp.filter (fun r => r.location_id == request.id) = []) :
    ((getWeather { env with insertOk := ok1 } request daily db).response =
        (getWeather { env with insertOk := ok2 } request daily db).response ∧
      (getWeather { env with insertOk := ok1 } request daily db).response =
        some (.fetched (daily.map (Weather.build env.dateToString env.now)))) ∧
    ((getEvents { env with insertOk := ok1 } request pe db).response =
        (getEvents { env with insertOk := ok2 } request pe db).response ∧
      (getEvents { env with insertOk := ok1 } request pe db).response =
        some (.fetched ((pe.map (Event.build env.dateOfString)).take 2))) ∧
    ((getMovies { env with insertOk := ok1 } request pm db).response =
        (getMovies { env with insertOk := ok2 } request pm db).response ∧
      (getMovies { env with insertOk := ok1 } request pm db).response =
        some (.fetched ((pm.map Movie.build).take 2))) ∧
    ((getYelp { env with insertOk := ok1 } request py db).response =
        (getYelp { env with insertOk := ok2 } request py db).response ∧
      (getYelp { env with insertOk := ok1 } request py db).response =
        some (.fetched ((py.map Yelp.build).take 2))) := by
  have hnw : (db.table weathersTableName).filter (fun r => r.location_id == request.id) = [] := by
    rw [filter_table_weathers db request.id, hw]; rfl
  have hne : (db.table eventsTableName).filter (fun r => r.location_id == request.id) = [] := by
    rw [filter_table_events db request.id, he]; rfl
  have hnm : (db.table moviesTableName).filter (fun r => r.location_id == request.id) = [] := by
    rw [filter_table_movies db request.id, hm]; rfl
  have hny : (db.table yelpTableName).filter (fun r => r.location_id == request.id) = [] := by
    rw [filter_table_yelp db request.id, hy]; rfl
  refine ⟨⟨?_, ?_⟩, ⟨?_, ?_⟩, ⟨?_, ?_⟩, ⟨?_, ?_⟩⟩
  · unfold getWeather
    rw [lookup_miss db _ hnw, lookup_miss db _ hnw]
    rfl
  · unfold getWeather
    rw [lookup_miss db _ hnw]
    rfl
  · unfold getEvents Event.lookup
    rw [lookup_miss db _ hne, lookup_miss db _ hne]
  · unfold getEvents Event.lookup
    rw [lookup_miss db _ hne]
  · unfold getMovies Event.lookup
    rw [lookup_miss db _ hnm, lookup_miss db _ hnm]
  · unfold getMovies Event.lookup
    rw [lookup_miss db _ hnm]
  · unfold getYelp Yelp.lookup
    rw [lookup_miss db _ hny, lookup_miss db _ hny]
  · unfold getYelp Yelp.lookup
    rw [lookup_miss db _ hny]

/-- C8, witnessed on the empty store with every insert of one run failing
(`fun i => false`) and every insert of the other succeeding: the weather
responses coincide and equal the mapped payload. -/
theorem response_independent_of_insert_outcome_witness :
    dbEmpty.weathers.filter (fun r => r.location_id == reqT.id) = [] ∧
    (getWeather { envT with insertOk := fun _ => true } reqT dailyT dbEmpty).response =
      (getWeather { envT with insertOk := fun _ => false } reqT dailyT dbEmpty).response ∧
    (getWeather { envT with insertOk := fun _ => true } reqT dailyT dbEmpty).response =
      some (.fetched (dailyT.map (Weather.build envT.dateToString envT.now))) :=
  ⟨rfl,
   (response_independent_of_insert_outcome envT (fun _ => true) (fun _ => false) reqT dailyT
     eventsPayload3 moviesPayload3 yelpPayload3 dbEmpty rfl rfl rfl rfl).1.1,
   (response_independent_of_insert_outcome envT (fun _ => true) (fun _ => false) reqT dailyT
     eventsPayload3 moviesPayload3 yelpPayload3 dbEmpty rfl rfl rfl rfl).1.2⟩

/-- C3 counterexample.  The claim says a unique-constraint collision makes
resolve return the constructed record without an id as a soft failure; in
fact `this.id = result.rows[0].id` on the empty row set throws, the
rejection of `location.save()` is handled nowhere, and no response is sent:
on a concrete colliding resolve the response is `none`, not the id-less
record. -/
theorem location_conflict_no_soft_failure :
    (getLocation envT true "98005" geoT dbEmpty).response = none ∧
    (getLocation envT true "98005" geoT dbEmpty).response ≠
      some (.saved
        { tableName := "locations"
          search_query := "98005"
          formatted_query := "Renton, WA 98056, USA"
          latitude := 47
          longitude := -122
          id? := none }) := by
  constructor
  · rfl
  · decide

/-- C3 as amended.  When the conflict-tolerant insert hits a collision the
statement produces no row and no identity, `Location.prototype.save`
rejects reading `result.rows[0].id`, and `getLocation` neither stores
anything nor sends any response: the collision is an unhandled error, not a
soft failure returning the id-less record. -/
theorem location_conflict_save_rejects (env : Env) (query : String)
    (r0 : GeoResult) (rs : List GeoResult) (db : DB)
    (hunseen : db.locations.filter (fun r => r.search_query == query) = []) :
    (∀ loc : Location, Location.save loc true env.nextId db =
      .error "TypeError: Cannot read property id of undefined") ∧
    (getLocation env true query (r0 :: rs) db).response = none ∧
    (getLocation env true query (r0 :: rs) db).db = db := by
  refine ⟨fun loc => rfl, ?_, ?_⟩ <;>
    · unfold getLocation Location.lookupLocation Location.build Location.save
      simp [hunseen]

/-- C3 as amended, witnessed at the concrete colliding resolve of a fresh
query. -/
theorem location_conflict_save_rejects_witness :
    dbEmpty.locations.filter (fun r => r.search_query == "98005") = [] ∧
    (getLocation envT true "98005" [geoT0] dbEmpty).response = none :=
  ⟨rfl, (location_conflict_save_rejects envT "98005" geoT0 [] dbEmpty rfl).2.1⟩

/-- C6.  Resolving a previously unseen `search_query` geocodes once and
stores the first result; resolving the same query again is a store hit with
no geocoding call, answering with the stored row, whose `formatted_query`,
`latitude` and `longitude` are exactly those of the record the first call
answered with.  (`conflict := false`: the `locations` table of schema.sql
has no unique constraint on `search_query`, so the insert cannot
collide.) -/
theorem location_resolve_idempotent (env env2 : Env) (query : String)
    (r0 : GeoResult) (rs : List GeoResult) (results2 : List GeoResult) (db : DB)
    (hunseen : db.locations.filter (fun r => r.search_query == query) = []) :
    (getLocation env false query (r0 :: rs) db).geocodeCalls = 1 ∧
    (getLocation env false query (r0 :: rs) db).response =
      some (.saved
        { tableName := "locations"
          search_query := query
          formatted_query := r0.formatted_address
          latitude := r0.lat
          longitude := r0.lng
          id? := some env.nextId }) ∧
    (getLocation env2 false query results2
        (getLocation env false query (r0 :: rs) db).db).geocodeCalls = 0 ∧
    (getLocation env2 false query results2
        (getLocation env false query (r0 :: rs) db).db).response =
      some (.row
        { id := env.nextId
          search_query := query
          formatted_query := r0.formatted_address
          latitude := r0.lat
          longitude := r0.lng }) := by
  unfold getLocation Location.lookupLocation Location.build Location.save
  simp [hunseen, List.filter_append]

/-- C6, witnessed on the concrete double resolve of "98005" against the
empty store. -/
theorem location_resolve_idempotent_witness :
    dbEmpty.locations.filter (fun r => r.search_query == "98005") = [] ∧
    (getLocation envT false "98005" [geoT0]
        (getLocation envT false "98005" [geoT0] dbEmpty).db).geocodeCalls = 0 ∧
    (getLocation envT false "98005" [geoT0]
        (getLocation envT false "98005" [geoT0] dbEmpty).db).response =
      some (.row
        { id := envT.nextId
          search_query := "98005"
          formatted_query := geoT0.formatted_address
          latitude := geoT0.lat
          longitude := geoT0.lng }) :=
  ⟨rfl,
   (location_resolve_idempotent envT envT "98005" geoT0 [] [geoT0] dbEmpty rfl).2.2.1,
   (location_resolve_idempotent envT envT "98005" geoT0 [] [geoT0] dbEmpty rfl).2.2.2⟩

/-- C7.  When the geocoding provider returns an empty `results` array on a
location cache miss, `new Location` reads `results[0]` out of bounds: the
embedded constructor takes its error branch (`none`), no Location value is
produced, the store is untouched, and no successful response is sent (the
provider was called once and `handleError` is invoked without a response
object). -/
theorem empty_geocode_results_error (env : Env) (conflict : Bool) (query : String)
    (db : DB)
    (hunseen : db.locations.filter (fun r => r.search_query == query) = []) :
    Location.build query [] = none ∧
    (getLocation env conflict query [] db).response = none ∧
    (getLocation env conflict query [] db).db = db ∧
    (getLocation env conflict query [] db).geocodeCalls = 1 := by
  unfold getLocation Location.lookupLocation
  simp [hunseen, Location.build]

/-- C7, witnessed at a concrete empty-payload resolve. -/
theorem empty_geocode_results_error_witness :
    dbEmpty.locations.filter (fun r => r.search_query == "98005") = [] ∧
    Location.build "98005" [] = none ∧
    (getLocation envT false "98005" [] dbEmpty).response = none :=
  ⟨rfl,
   (empty_geocode_results_error envT false "98005" dbEmpty rfl).1,
   (empty_geocode_results_error envT false "98005" dbEmpty rfl).2.1⟩

/-- C9.  Round-trip: the record mapped from a provider payload item and
persisted for a location is found again, unchanged, when the store is
re-read for that location (the filter by `location_id` is exactly the
re-read the handlers perform), and its persisted columns reproduce the
field values used to construct it — shown for business listings and
analogously for weather, events and movies. -/
theorem record_roundtrip (dts : Int → String) (dos : String → String) (now : Int)
    (day : WeatherDay) (ei : EventItem) (mi : MovieItem) (yi : YelpItem)
    (loc id : Nat) (db : DB) :
    (({ db with yelp := db.yelp ++ [(Yelp.build yi).toRow loc id] } : DB).yelp.filter
        (fun r => r.location_id == loc) =
      db.yelp.filter (fun r => r.location_id == loc) ++ [(Yelp.build yi).toRow loc id] ∧
     ((Yelp.build yi).toRow loc id).name = yi.name ∧
     ((Yelp.build yi).toRow loc id).url = yi.url ∧
     ((Yelp.build yi).toRow loc id).image_url = yi.image_url ∧
     ((Yelp.build yi).toRow loc id).rating = yi.rating ∧
     ((Yelp.build yi).toRow loc id).price = yi.price ∧
     ((Yelp.build yi).toRow loc id).location_id = loc) ∧
    (({ db with weathers := db.weathers ++ [(Weather.build dts now day).toRow loc id] }
          : DB).weathers.filter (fun r => r.location_id == loc) =
      db.weathers.filter (fun r => r.location_id == loc) ++
        [(Weather.build dts now day).toRow loc id] ∧
     ((Weather.build dts now day).toRow loc id).forecast = day.summary ∧
     ((Weather.build dts now day).toRow loc id).time = (dts (day.time * 1000)).take 15 ∧
     ((Weather.build dts now day).toRow loc id).created_at = now ∧
     ((Weather.build dts now day).toRow loc id).location_id = loc) ∧
    (({ db with events := db.events ++ [(Event.build dos ei).toRow loc id] } : DB).events.filter
        (fun r => r.location_id == loc) =
      db.events.filter (fun r => r.location_id == loc) ++ [(Event.build dos ei).toRow loc id] ∧
     ((Event.build dos ei).toRow loc id).link = ei.url ∧
     ((Event.build dos ei).toRow loc id).name = ei.name_text ∧
     ((Event.build dos ei).toRow loc id).event_date = (dos ei.start_local).take 15 ∧
     ((Event.build dos ei).toRow loc id).summary = ei.summary ∧
     ((Event.build dos ei).toRow loc id).location_id = loc) ∧
    (({ db with movies := db.movies ++ [(Movie.build mi).toRow loc id] } : DB).movies.filter
        (fun r => r.location_id == loc) =
      db.movies.filter (fun r => r.location_id == loc) ++ [(Movie.build mi).toRow loc id] ∧
     ((Movie.build mi).toRow loc id).title = mi.title ∧
     ((Movie.build mi).toRow loc id).overview = mi.overview ∧
     ((Movie.build mi).toRow loc id).average_votes = mi.vote_average ∧
     ((Movie.build mi).toRow loc id).total_votes = mi.vote_count ∧
     ((Movie.build mi).toRow loc id).image_url =
        "https://image.tmdb.org/t/p/w185/" ++ mi.poster_path ∧
     ((Movie.build mi).toRow loc id).popularity = mi.popularity ∧
     ((Movie.build mi).toRow loc id).released_on = mi.release_date ∧
     ((Movie.build mi).toRow loc id).location_id = loc) := by
  simp [List.filter_append, Yelp.toRow, Weather.toRow, Event.toRow, Movie.toRow,
    Yelp.build, Weather.build, Event.build, Movie.build]

/-- C10.  `Event.lookup`, `Movie.lookup` and the generic `lookup` are one
and the same function, and `getMovies` — though written against
`Event.lookup` — is extensionally identical to the movies handler written
against the generic `lookup` specialized with `Movie.tableName = "movies"`;
that table name makes the movies table the one queried. -/
theorem getMovies_refines_generic_lookup :
    (∀ α : Type, @Event.lookup α = @lookup α) ∧
    (∀ α : Type, @Movie.lookup α = @lookup α) ∧
    (∀ (env : Env) (request : RequestData) (payload : List MovieItem) (db : DB),
      getMovies env request payload db = getMoviesGeneric env request payload db) ∧
    (∀ db : DB, db.table moviesTableName = db.movies.map Row.movie) :=
  ⟨fun _ => rfl, fun _ => rfl, fun _ _ _ _ => rfl, fun _ => rfl⟩

end CityExplorer
